import Mathlib

/-!
Verification of the MCP validation subsystem of Auto-Claude
(`auto-claude/integrations/mcp/`): a shallow embedding of the data model
and the pure control flow of the availability checker, fallback handler,
error catalog, depth resolution, feature filtering, cross-browser
expansion, smoke-result conversion, test-case runner and the
complexity-aware orchestrator, together with theorems settling the
spec claims against the embedded code.

Modelling conventions:
- Python `datetime` values are embedded as `Int` seconds; `timedelta`
  comparison is integer comparison.
- `async` I/O effects (client connect/close, subprocess runs, wall
  clock) are parameters ("oracles") supplied to the embedded function;
  the embedding records the trace of client operations where a claim
  is about which operations happen.
- Python dicts with heterogeneous value shapes are embedded as tagged
  unions; dict lookup with default is total function application.
- `screenshots` (filesystem paths) and float `duration` fields are
  outside the model and omitted from `E2EValidationResult`.
-/

namespace AutoClaude

/-! ## availability.py: status and failure-reason enums, MCPAvailability -/

inductive MCPStatus where
  | AVAILABLE
  | UNAVAILABLE
  | DEGRADED
  | UNKNOWN
deriving DecidableEq, Repr

inductive MCPFailureReason where
  | SERVER_NOT_RUNNING
  | CONNECTION_TIMEOUT
  | AUTH_FAILED
  | VERSION_MISMATCH
  | PERMISSION_DENIED
  | UNKNOWN
deriving DecidableEq, Repr

/-- `MCPAvailability` dataclass; `checked_at` / `retry_after` are
`datetime`s embedded as `Int` seconds. -/
structure MCPAvailability where
  status : MCPStatus
  reason : Option MCPFailureReason
  message : String
  checked_at : Int
  retry_after : Option Int := none
deriving DecidableEq, Repr

def MCPAvailability.is_available (a : MCPAvailability) : Bool :=
  a.status = MCPStatus.AVAILABLE

/-! ## errors.py: error catalog and message formatting -/

structure MCPError where
  code : String
  message : String
  remediation : String
  docs_url : Option String := none
deriving DecidableEq, Repr

/-- The `MCP_ERRORS` registry dict. Every `MCPFailureReason` is a key,
so the dict is embedded as a total function. -/
def MCP_ERRORS : MCPFailureReason → MCPError
  | .SERVER_NOT_RUNNING =>
    { code := "MCP_001"
      message := "MCP server is not running"
      remediation := "To start the Browser MCP server:\n\n1. Install the MCP server: npm install -g @anthropic/mcp-server-puppeteer\n2. Start the server: mcp-server-puppeteer\n3. Verify it\x27s running: curl http://localhost:3000/health\n\nFor Electron MCP:\n1. Install: npm install -g @anthropic/mcp-server-electron\n2. Start: mcp-server-electron\n"
      docs_url := some "https://docs.anthropic.com/mcp/servers" }
  | .CONNECTION_TIMEOUT =>
    { code := "MCP_002"
      message := "Connection to MCP server timed out"
      remediation := "Check your network and MCP server:\n\n1. Verify the server is running: ps aux | grep mcp\n2. Check the server port is accessible: nc -zv localhost 3000\n3. Review firewall settings\n4. Try increasing timeout in .auto-claude/config.json:\n   \x7b\"mcp\": \x7b\"timeout\": 60000\x7d\x7d\n"
      docs_url := some "https://docs.anthropic.com/mcp/troubleshooting#timeout" }
  | .AUTH_FAILED =>
    { code := "MCP_003"
      message := "Authentication to MCP server failed"
      remediation := "Check your MCP credentials:\n\n1. Verify CLAUDE_MCP_TOKEN is set in your environment\n2. Check the token hasn\x27t expired\n3. Regenerate token: claude mcp auth refresh\n"
      docs_url := some "https://docs.anthropic.com/mcp/auth" }
  | .VERSION_MISMATCH =>
    { code := "MCP_004"
      message := "MCP server version is incompatible"
      remediation := "Update your MCP server:\n\n1. Check current version: mcp-server --version\n2. Update: npm update -g @anthropic/mcp-server-puppeteer\n3. Restart the server\n\nRequired version: >=1.0.0\n"
      docs_url := some "https://docs.anthropic.com/mcp/changelog" }
  | .PERMISSION_DENIED =>
    { code := "MCP_005"
      message := "Permission denied accessing MCP server"
      remediation := "Check permissions:\n\n1. Verify you have access to the MCP socket\n2. On macOS, grant accessibility permissions in System Preferences\n3. On Linux, add user to appropriate group: sudo usermod -a -G mcp $USER\n"
      docs_url := some "https://docs.anthropic.com/mcp/permissions" }
  | .UNKNOWN =>
    { code := "MCP_999"
      message := "Unknown MCP error"
      remediation := "Try these general troubleshooting steps:\n\n1. Restart the MCP server\n2. Check server logs: tail -f ~/.mcp/logs/server.log\n3. Verify Claude Code is up to date\n4. Report issue: https://github.com/anthropics/claude-code/issues\n"
      docs_url := some "https://docs.anthropic.com/mcp/troubleshooting" }

/-- `get_error_for_reason`: `MCP_ERRORS.get(reason, MCP_ERRORS[UNKNOWN])`.
The argument is `Option` because callers pass `MCPAvailability.reason`,
which may be `None`; a `None` key misses the dict and yields the
`UNKNOWN` entry. -/
def get_error_for_reason (reason : Option MCPFailureReason) : MCPError :=
  match reason with
  | some r => MCP_ERRORS r
  | none => MCP_ERRORS .UNKNOWN

/-- `format_error_message`: builds the displayed lines and joins with
newlines. -/
def format_error_message (reason : Option MCPFailureReason)
    (include_remediation : Bool := true) : String :=
  let error := get_error_for_reason reason
  let lines : List String :=
    ["⚠️  " ++ error.message ++ " [" ++ error.code ++ "]", ""]
    ++ (if include_remediation then ["Remediation:", error.remediation] else [])
    ++ (match error.docs_url with
        | some u => ["", "Documentation: " ++ u]
        | none => [])
  String.intercalate "\n" lines

/-! ## fallback.py: fallback mode, config, result, handler -/

inductive FallbackMode where
  | FAIL
  | WARN
  | SKIP
  | REDUCED
deriving DecidableEq, Repr

structure FallbackConfig where
  mode : FallbackMode := .WARN
  run_unit_tests : Bool := true
  run_lint : Bool := true
  mark_as_partial : Bool := true
deriving DecidableEq, Repr

structure FallbackResult where
  used_fallback : Bool
  reason : String
  validation_run : String
  unit_tests_passed : Option Bool := none
  lint_passed : Option Bool := none
deriving DecidableEq, Repr

/-! ## Shared result type (browser.py `E2EValidationResult`) -/

/-- One step record of `run_test_case`'s `interaction_history` dicts. -/
structure StepRecord where
  step : Nat
  action : String
  selector : Option String
  value : Option String
  status : String
  error : Option String := none
deriving DecidableEq, Repr

/-- The result dict of `run_test_case`. The `skipped` key is only set
(to `True`) in the skip branch; its absence reads as falsy, embedded as
`skipped := false`. -/
structure TestCaseResult where
  id : String
  name : String
  passed : Bool
  skipped : Bool := false
  error : Option String := none
  interaction_history : List StepRecord := []
  dom_snapshot : Option String := none
deriving DecidableEq, Repr

/-- The `failures` lists hold dicts of three shapes: smoke-check entries
`{check, error}`, whole test-case result dicts, and bare `{error}`
entries; embedded as a tagged union. -/
inductive FailureEntry where
  | smokeCheck (check : String) (error : String)
  | testCase (r : TestCaseResult)
  | errorOnly (error : String)
deriving DecidableEq, Repr

/-- `E2EValidationResult` dataclass (browser.py). `screenshots` and the
float `duration` are outside the model and omitted. -/
structure E2EValidationResult where
  passed : Bool
  total_checks : Nat
  passed_checks : Nat
  failed_checks : Nat
  failures : List FailureEntry := []
  raw_output : String := ""
deriving DecidableEq, Repr

/-- `handle_mcp_unavailable`. The Python signature takes an optional
config and loads the on-disk project config when it is absent; every
claim supplies the config, so the embedding takes it directly. The two
awaited subprocess helpers `_run_unit_tests` / `_run_lint` are I/O;
their boolean outcomes are the oracle parameters `unit_tests_outcome`
and `lint_outcome`. -/
def handle_mcp_unavailable (availability : MCPAvailability)
    (config : FallbackConfig)
    (unit_tests_outcome : Bool) (lint_outcome : Bool) :
    Option E2EValidationResult × FallbackResult :=
  match config.mode with
  | .FAIL =>
    (none,
     { used_fallback := false
       reason := availability.message
       validation_run := "none" })
  | .SKIP =>
    (some
      { passed := true  -- Do not fail build
        total_checks := 0
        passed_checks := 0
        failed_checks := 0
        raw_output := "E2E validation skipped - MCP unavailable" },
     { used_fallback := true
       reason := availability.message
       validation_run := "none" })
  | .WARN | .REDUCED =>
    let fallback_result : FallbackResult :=
      { used_fallback := true
        reason := availability.message
        validation_run :=
          if config.mode = FallbackMode.REDUCED then "reduced" else "none"
        unit_tests_passed :=
          if config.mode = FallbackMode.REDUCED ∧ config.run_unit_tests = true
          then some unit_tests_outcome else none
        lint_passed :=
          if config.mode = FallbackMode.REDUCED ∧ config.run_lint = true
          then some lint_outcome else none }
    let validation_result : E2EValidationResult :=
      { passed := true  -- MCP unavailable is not a test failure
        total_checks := 0
        passed_checks := 0
        failed_checks := 0
        raw_output := format_error_message availability.reason false }
    (some validation_result, fallback_result)

/-- Substring containment on strings, for stating what an output
message "carries". -/
def strContains (s pat : String) : Bool :=
  (List.range (s.data.length + 1)).any fun i =>
    List.isPrefixOf pat.data (s.data.drop i)

/-! ## models.py: E2E test steps, cases, suites

`ActionType` is a `Literal[...]` union of strings in the source and all
dispatch on it is string comparison, so it is embedded as `String`. The
`position` dict is embedded as an association list. -/

structure E2ETestStep where
  action : String
  selector : Option String := none
  value : Option String := none
  expected : Option String := none
  timeout : Option Int := none
  position : Option (List (String × Int)) := none
deriving DecidableEq, Repr

structure E2ETestCase where
  id : String
  name : String
  description : String
  steps : List E2ETestStep := []
  skip : Bool := false
  critical : Bool := false
deriving DecidableEq, Repr

structure E2ETestSuite where
  name : String
  description : String
  app_url : String
  test_cases : List E2ETestCase := []
deriving DecidableEq, Repr

/-! ## feature_tests.py: feature mappings and filtering -/

structure FeatureMapping where
  feature_name : String
  code_paths : List String
  test_ids : List String
deriving DecidableEq, Repr

/-- Insert preserving first occurrence, for embedding `set.add` with
insertion order (the claims only depend on membership). -/
def add_if_absent (l : List String) (x : String) : List String :=
  if l.contains x then l else l ++ [x]

/-- `get_affected_features`. `fnmatch.fnmatch` is a Python stdlib glob
matcher, external to the repository; it is the oracle parameter
`fnmatchFn file pattern`. The Python `affected` set is embedded as an
insertion-ordered duplicate-free list; the inner `break` after the
first matching pattern of a mapping only short-circuits and does not
change the resulting set. -/
def get_affected_features (changed_files : List String)
    (feature_mappings : List FeatureMapping)
    (fnmatchFn : String → String → Bool) : List String :=
  changed_files.foldl
    (fun acc file =>
      feature_mappings.foldl
        (fun acc m =>
          if m.code_paths.any (fun pattern => fnmatchFn file pattern) then
            add_if_absent acc m.feature_name
          else acc)
        acc)
    []

/-- The `relevant_test_ids` set built by `filter_tests_by_features`:
all test ids of mappings whose feature name is in `affected_features`.
Embedded as a list; only membership is consulted. -/
def relevant_test_ids (affected_features : List String)
    (feature_mappings : List FeatureMapping) : List String :=
  affected_features.flatMap fun feature =>
    (feature_mappings.filter fun m => m.feature_name == feature).flatMap
      fun m => m.test_ids

/-- `filter_tests_by_features`: keep test cases whose id is relevant,
then append critical test cases not already included. -/
def filter_tests_by_features (full_suite : E2ETestSuite)
    (affected_features : List String)
    (feature_mappings : List FeatureMapping) : E2ETestSuite :=
  let ids := relevant_test_ids affected_features feature_mappings
  let filtered_cases :=
    full_suite.test_cases.filter fun tc => ids.contains tc.id
  let critical_tests :=
    full_suite.test_cases.filter fun tc =>
      tc.critical && !(ids.contains tc.id)
  { name := full_suite.name ++ "-filtered"
    description :=
      "Filtered suite for features: " ++ String.intercalate ", " affected_features
    app_url := full_suite.app_url
    test_cases := filtered_cases ++ critical_tests }

/-! ## full_suite.py: cross-browser expansion -/

/-- The clone built inside `expand_test_cases_for_browsers` for one
(test case, browser) pair. `steps.copy()` is a shallow list copy. -/
def browser_clone (tc : E2ETestCase) (browser : String) : E2ETestCase :=
  { id := tc.id ++ "-" ++ browser
    name := tc.name ++ " (" ++ browser ++ ")"
    description := tc.description
    steps := tc.steps
    skip := tc.skip
    critical := tc.critical }

/-- `expand_test_cases_for_browsers`: nested loops, test-case major,
browser minor. -/
def expand_test_cases_for_browsers (test_cases : List E2ETestCase)
    (browsers : List String) : List E2ETestCase :=
  test_cases.flatMap fun tc => browsers.map fun browser => browser_clone tc browser

structure FullSuiteConfig where
  parallel_workers : Nat := 4
  cross_browser : Bool := true
  cross_platform : Bool := false
  browsers : List String := ["chromium"]
deriving DecidableEq, Repr

/-! ## smoke_tests.py: smoke result and conversion -/

structure SmokeTestResult where
  app_loads : Bool
  main_page_renders : Bool
  no_console_errors : Bool
  health_check_passed : Bool
  errors : List String := []
deriving DecidableEq, Repr

/-- `smoke_result_to_e2e_result`: four fixed checks. -/
def smoke_result_to_e2e_result (smoke : SmokeTestResult) : E2EValidationResult :=
  let checks : List Bool :=
    [smoke.app_loads, smoke.main_page_renders,
     smoke.no_console_errors, smoke.health_check_passed]
  let passed_count := (checks.filter (fun c => c)).length
  let failed_count := checks.length - passed_count
  let failures : List FailureEntry :=
    (if smoke.app_loads then [] else
      [.smokeCheck "app_loads" "App failed to load"])
    ++ (if smoke.main_page_renders then [] else
      [.smokeCheck "main_page_renders" "Main page did not render"])
    ++ (if smoke.no_console_errors then [] else
      [.smokeCheck "console_errors" "Console errors detected"])
    ++ (if smoke.health_check_passed then [] else
      [.smokeCheck "health_check" "Health check failed"])
  { passed := failed_count == 0
    total_checks := checks.length
    passed_checks := passed_count
    failed_checks := failed_count
    failures := failures }

/-! ## validation_depth.py: depth resolution -/

inductive ValidationDepth where
  | SMOKE
  | FEATURE
  | FULL
deriving DecidableEq, Repr

def ValidationDepth.value : ValidationDepth → String
  | .SMOKE => "smoke"
  | .FEATURE => "feature"
  | .FULL => "full"

structure ValidationDepthConfig where
  simple_depth : ValidationDepth := .SMOKE
  standard_depth : ValidationDepth := .FEATURE
  complex_depth : ValidationDepth := .FULL
  force_depth : Option ValidationDepth := none
  smoke_timeout : Int := 60
  feature_timeout : Int := 300
  full_timeout : Int := 1800
deriving DecidableEq, Repr

/-- `DEFAULT_TIER_MAP` as an association list (both tier vocabularies). -/
def DEFAULT_TIER_MAP : List (String × ValidationDepth) :=
  [("simple", .SMOKE), ("standard", .FEATURE), ("complex", .FULL),
   ("quick-flow", .SMOKE), ("method", .FEATURE), ("enterprise", .FULL)]

/-- The tier map after the per-key config overrides of
`get_validation_depth_for_tier` (every key of the default dict is
overwritten when a config is present). -/
def tier_map_with_overrides (c : ValidationDepthConfig) :
    List (String × ValidationDepth) :=
  [("simple", c.simple_depth), ("standard", c.standard_depth),
   ("complex", c.complex_depth), ("quick-flow", c.simple_depth),
   ("method", c.standard_depth), ("enterprise", c.complex_depth)]

/-- ASCII-wise lowercase, embedding Python `str.lower` (they agree on
the ASCII tier names involved; `String.toLower` is per-character
`Char.toLower` as well). -/
def str_lower (s : String) : String :=
  String.mk (s.data.map Char.toLower)

/-- `get_validation_depth_for_tier`. Python truthiness: `config` must be
non-`None` and `config.force_depth` non-`None` for the override (enum
members are truthy). Unknown tiers default to `FEATURE`. -/
def get_validation_depth_for_tier (tier : String)
    (config : Option ValidationDepthConfig := none) : ValidationDepth :=
  match config with
  | some c =>
    match c.force_depth with
    | some d => d
    | none =>
      ((tier_map_with_overrides c).lookup (str_lower tier)).getD .FEATURE
  | none => (DEFAULT_TIER_MAP.lookup (str_lower tier)).getD .FEATURE

/-! ## availability.py: MCPAvailabilityChecker

The `async` client calls are I/O; a probe's interaction with the client
is summarised by a `ConnectOutcome` oracle (what `client.connect()`
does) and the embedding records the trace of client operations actually
performed, mirroring the `try`/`except` control flow: an exception
raised by `connect` transfers control to the matching `except` handler,
so `client.close()` only runs when `connect` returns. -/

inductive ConnectOutcome where
  | returns (connected : Bool)
  | raisesTimeout
  | raisesPermission
  | raisesOther (msg : String)
deriving DecidableEq, Repr

inductive ClientEvent where
  | create
  | connectAttempt
  | closeAttempt
deriving DecidableEq, Repr

structure MCPAvailabilityChecker where
  cache_duration : Int := 60
  browser_cache : Option MCPAvailability := none
  electron_cache : Option MCPAvailability := none
deriving DecidableEq, Repr

/-- The `try` block body and `except` handlers of `check_browser_mcp`,
per connect outcome, at time `now` (`datetime.now()` at classification
is identified with the probe time): the classified availability and the
trace of client operations. -/
def browser_probe (now : Int) : ConnectOutcome → MCPAvailability × List ClientEvent
  | .returns connected =>
    ((if connected then
        { status := .AVAILABLE, reason := none
          message := "Browser MCP is available", checked_at := now }
      else
        { status := .UNAVAILABLE, reason := some .SERVER_NOT_RUNNING
          message := "Browser MCP server is not running", checked_at := now
          retry_after := some (now + 5 * 60) }),
     [.create, .connectAttempt, .closeAttempt])
  | .raisesTimeout =>
    ({ status := .UNAVAILABLE, reason := some .CONNECTION_TIMEOUT
       message := "Connection to Browser MCP timed out", checked_at := now
       retry_after := some (now + 60) },
     [.create, .connectAttempt])
  | .raisesPermission =>
    ({ status := .UNAVAILABLE, reason := some .PERMISSION_DENIED
       message := "Permission denied connecting to Browser MCP"
       checked_at := now },
     [.create, .connectAttempt])
  | .raisesOther msg =>
    ({ status := .UNAVAILABLE, reason := some .UNKNOWN
       message := "Browser MCP check failed: " ++ msg, checked_at := now },
     [.create, .connectAttempt])

/-- Same for `check_electron_mcp` (identical structure, Electron
messages). -/
def electron_probe (now : Int) : ConnectOutcome → MCPAvailability × List ClientEvent
  | .returns connected =>
    ((if connected then
        { status := .AVAILABLE, reason := none
          message := "Electron MCP is available", checked_at := now }
      else
        { status := .UNAVAILABLE, reason := some .SERVER_NOT_RUNNING
          message := "Electron MCP server is not running", checked_at := now
          retry_after := some (now + 5 * 60) }),
     [.create, .connectAttempt, .closeAttempt])
  | .raisesTimeout =>
    ({ status := .UNAVAILABLE, reason := some .CONNECTION_TIMEOUT
       message := "Connection to Electron MCP timed out", checked_at := now
       retry_after := some (now + 60) },
     [.create, .connectAttempt])
  | .raisesPermission =>
    ({ status := .UNAVAILABLE, reason := some .PERMISSION_DENIED
       message := "Permission denied connecting to Electron MCP"
       checked_at := now },
     [.create, .connectAttempt])
  | .raisesOther msg =>
    ({ status := .UNAVAILABLE, reason := some .UNKNOWN
       message := "Electron MCP check failed: " ++ msg, checked_at := now },
     [.create, .connectAttempt])

/-- `check_browser_mcp(force)`: serve a young cache entry when not
forced, otherwise probe and cache the classification. Returns the
availability, the updated checker state, and the client-operation
trace (empty on a cache hit). -/
def check_browser_mcp (st : MCPAvailabilityChecker) (now : Int)
    (force : Bool) (outcome : ConnectOutcome) :
    MCPAvailability × MCPAvailabilityChecker × List ClientEvent :=
  match force, st.browser_cache with
  | false, some c =>
    if now - c.checked_at < st.cache_duration then
      (c, st, [])
    else
      let (a, ev) := browser_probe now outcome
      (a, { st with browser_cache := some a }, ev)
  | _, _ =>
    let (a, ev) := browser_probe now outcome
    (a, { st with browser_cache := some a }, ev)

/-- `check_electron_mcp(force)`. -/
def check_electron_mcp (st : MCPAvailabilityChecker) (now : Int)
    (force : Bool) (outcome : ConnectOutcome) :
    MCPAvailability × MCPAvailabilityChecker × List ClientEvent :=
  match force, st.electron_cache with
  | false, some c =>
    if now - c.checked_at < st.cache_duration then
      (c, st, [])
    else
      let (a, ev) := electron_probe now outcome
      (a, { st with electron_cache := some a }, ev)
  | _, _ =>
    let (a, ev) := electron_probe now outcome
    (a, { st with electron_cache := some a }, ev)

def clear_cache (st : MCPAvailabilityChecker) : MCPAvailabilityChecker :=
  { st with browser_cache := none, electron_cache := none }

/-! ## validation.py: run_test_case

The browser client is I/O; the outcome of `execute_step` on a step (a
normal return, or an exception message from a failed client action,
failed assertion or `ValueError`) is the oracle `stepExec`, and the
outcome of `client.get_dom_snapshot()` is the oracle `domSnapshot`.
The embedding additionally returns the trace of automation-client
operations performed. -/

inductive ClientOp where
  | execStep (s : E2ETestStep)
  | getDomSnapshot
deriving DecidableEq, Repr

/-- The `for` loop of `run_test_case` over `enumerate(test_case.steps)`
starting at 1-based display index `i + 1`: returns the accumulated
`interaction_history`, the exception message if a step raised, and the
steps on which `execute_step` was invoked. Each iteration appends an
`executing` record, runs the step, and marks the record `completed`;
on an exception the last record is marked `failed` with the error and
the loop stops. -/
def run_steps (stepExec : E2ETestStep → Except String Unit) :
    List E2ETestStep → Nat →
    List StepRecord × Option String × List E2ETestStep
  | [], _ => ([], none, [])
  | s :: rest, i =>
    let record : StepRecord :=
      { step := i + 1, action := s.action, selector := s.selector
        value := s.value, status := "executing" }
    match stepExec s with
    | .ok _ =>
      let (history, err, execd) := run_steps stepExec rest (i + 1)
      ({ record with status := "completed" } :: history, err, s :: execd)
    | .error msg =>
      ([{ record with status := "failed", error := some msg }],
       some msg, [s])

/-- `run_test_case`: early return for skipped cases, otherwise run the
steps; on failure capture a DOM snapshot (a falsy — empty or failed —
snapshot is reported as `None`, a non-empty one truncated to 10000
characters). Returns the result dict and the client-operation trace. -/
def run_test_case (test_case : E2ETestCase)
    (stepExec : E2ETestStep → Except String Unit)
    (domSnapshot : Except String String) :
    TestCaseResult × List ClientOp :=
  if test_case.skip then
    ({ id := test_case.id, name := test_case.name, passed := true
       skipped := true, error := none, interaction_history := [] },
     [])
  else
    let (history, err, execd) := run_steps stepExec test_case.steps 0
    match err with
    | none =>
      ({ id := test_case.id, name := test_case.name, passed := true
         error := none, interaction_history := history },
       execd.map ClientOp.execStep)
    | some msg =>
      let dom : Option String :=
        match domSnapshot with
        | .ok d => if d = "" then none else some (String.mk (d.data.take 10000))
        | .error _ => none
      ({ id := test_case.id, name := test_case.name, passed := false
         error := some msg, interaction_history := history
         dom_snapshot := dom },
       execd.map ClientOp.execStep ++ [ClientOp.getDomSnapshot])

/-! ## complexity_aware_validation.py: metrics and orchestrator -/

/-- `ValidationMetrics`. `duration_seconds` (wall clock) is embedded as
`Int`; the float `pass_rate` property is outside the model. -/
structure ValidationMetrics where
  tier : String
  depth : String
  test_count : Nat
  passed_count : Nat
  failed_count : Nat
  duration_seconds : Int
  skipped_test_count : Nat
  browser_count : Nat
deriving DecidableEq, Repr

/-- The sequential per-case loop of the orchestrator's FEATURE branch:
count passes and failures, appending failed result dicts. -/
def run_feature_cases (stepExec : E2ETestStep → Except String Unit)
    (domSnapshot : Except String String) :
    List E2ETestCase → Nat × Nat × List FailureEntry
  | [] => (0, 0, [])
  | tc :: rest =>
    let r := (run_test_case tc stepExec domSnapshot).1
    let (p, f, fs) := run_feature_cases stepExec domSnapshot rest
    if r.passed then (p + 1, f, fs) else (p, f + 1, .testCase r :: fs)

/-- `run_complexity_aware_validation`. I/O boundaries supplied as
parameters: `config` is the result of `load_validation_config`,
`feature_mappings` of `load_feature_mappings` (both disk reads),
`fnmatchFn` the stdlib glob matcher, `smoke` the outcome of
`run_smoke_tests`, `stepExec`/`domSnapshot` the client behaviour for
the sequential FEATURE-branch execution, `full_suite_result` the
outcome of the concurrent `run_full_suite`, and `duration_seconds` the
measured wall time. Python truthiness of `if changed_files:` makes
`None` and the empty list both take the run-everything branch. -/
def run_complexity_aware_validation (tier : String) (suite : E2ETestSuite)
    (config : ValidationDepthConfig)
    (changed_files : Option (List String))
    (feature_mappings : List FeatureMapping)
    (fnmatchFn : String → String → Bool)
    (smoke : SmokeTestResult)
    (stepExec : E2ETestStep → Except String Unit)
    (domSnapshot : Except String String)
    (full_suite_result : E2EValidationResult)
    (duration_seconds : Int) :
    E2EValidationResult × ValidationMetrics :=
  let depth := get_validation_depth_for_tier tier (some config)
  let original_test_count := suite.test_cases.length
  let (result, skipped_count, browser_count) :
      E2EValidationResult × Nat × Nat :=
    match depth with
    | .SMOKE =>
      -- Smoke tests check 4 things, not the test suite
      (smoke_result_to_e2e_result smoke, original_test_count, 1)
    | .FEATURE =>
      match changed_files with
      | some (f :: fs) =>
        let affected :=
          get_affected_features (f :: fs) feature_mappings fnmatchFn
        let filtered :=
          filter_tests_by_features suite affected feature_mappings
        let (p, fl, fails) :=
          run_feature_cases stepExec domSnapshot filtered.test_cases
        ({ passed := fl == 0
           total_checks := filtered.test_cases.length
           passed_checks := p, failed_checks := fl, failures := fails },
         original_test_count - filtered.test_cases.length, 1)
      | _ =>
        -- No changed files - run all tests
        let (p, fl, fails) :=
          run_feature_cases stepExec domSnapshot suite.test_cases
        ({ passed := fl == 0
           total_checks := suite.test_cases.length
           passed_checks := p, failed_checks := fl, failures := fails },
         0, 1)
    | .FULL =>
      let full_config : FullSuiteConfig :=
        { parallel_workers := 4, cross_browser := true
          browsers := ["chromium", "firefox"] }
      (full_suite_result, 0, full_config.browsers.length)
  let metrics : ValidationMetrics :=
    { tier := tier
      depth := depth.value
      test_count := result.total_checks
      passed_count := result.passed_checks
      failed_count := result.failed_checks
      duration_seconds := duration_seconds
      skipped_test_count := skipped_count
      browser_count := browser_count }
  (result, metrics)

/-! ## Theorems -/

/-- C1: For every `MCPAvailability` value and every `FallbackConfig`
whose mode is WARN, SKIP, or REDUCED (i.e. not FAIL),
`handle_mcp_unavailable` returns a non-null validation result with
`passed = true` and `total_checks = 0`; in REDUCED mode the outcomes of
the local unit-test and lint substitute checks are recorded in the
`FallbackResult` (for each check the config enables) while the returned
validation result's `passed` flag stays `true` for all outcomes. -/
theorem handle_mcp_unavailable_never_fails
    (availability : MCPAvailability) (config : FallbackConfig)
    (u l : Bool) (h : config.mode ≠ FallbackMode.FAIL) :
    ∃ r, (handle_mcp_unavailable availability config u l).1 = some r ∧
      r.passed = true ∧ r.total_checks = 0 ∧
      (config.mode = FallbackMode.REDUCED →
        (handle_mcp_unavailable availability config u l).2.unit_tests_passed
          = (if config.run_unit_tests = true then some u else none) ∧
        (handle_mcp_unavailable availability config u l).2.lint_passed
          = (if config.run_lint = true then some l else none)) := by
  cases hm : config.mode with
  | FAIL => exact absurd hm h
  | WARN =>
    simp only [handle_mcp_unavailable, hm]
    exact ⟨_, rfl, rfl, rfl, by simp⟩
  | SKIP =>
    simp only [handle_mcp_unavailable, hm]
    exact ⟨_, rfl, rfl, rfl, by simp⟩
  | REDUCED =>
    simp only [handle_mcp_unavailable, hm]
    refine ⟨_, rfl, rfl, rfl, fun _ => ⟨?_, ?_⟩⟩ <;> simp

/-- C1 witness: REDUCED mode with default check flags at a concrete
unavailable status. -/
theorem handle_mcp_unavailable_never_fails_witness :
    ∃ r, (handle_mcp_unavailable
      { status := .UNAVAILABLE, reason := some .SERVER_NOT_RUNNING
        message := "Browser MCP server is not running", checked_at := 0 }
      { mode := FallbackMode.REDUCED } true false).1 = some r ∧
      r.passed = true ∧ r.total_checks = 0 ∧
      (({ mode := FallbackMode.REDUCED } : FallbackConfig).mode
          = FallbackMode.REDUCED →
        (handle_mcp_unavailable
          { status := .UNAVAILABLE, reason := some .SERVER_NOT_RUNNING
            message := "Browser MCP server is not running", checked_at := 0 }
          { mode := FallbackMode.REDUCED } true false).2.unit_tests_passed
          = (if ({ mode := FallbackMode.REDUCED } : FallbackConfig).run_unit_tests
              = true then some true else none) ∧
        (handle_mcp_unavailable
          { status := .UNAVAILABLE, reason := some .SERVER_NOT_RUNNING
            message := "Browser MCP server is not running", checked_at := 0 }
          { mode := FallbackMode.REDUCED } true false).2.lint_passed
          = (if ({ mode := FallbackMode.REDUCED } : FallbackConfig).run_lint
              = true then some false else none)) :=
  handle_mcp_unavailable_never_fails _ _ true false (by decide)

/-- C2 counterexample: a suite with one non-critical test case filtered
with an empty affected-features list loses that test case, so the
unfiltered suite is not returned. -/
theorem filter_tests_empty_features_counterexample :
    (filter_tests_by_features
      { name := "s", description := "d", app_url := "http://x"
        test_cases := [{ id := "t1", name := "n", description := "d" }] }
      [] []).test_cases = []
    ∧ ({ name := "s", description := "d", app_url := "http://x"
         test_cases := [{ id := "t1", name := "n", description := "d" }] }
        : E2ETestSuite).test_cases.length = 1 := by
  constructor <;> rfl

/-- C2 (amended): applied with an empty affected-features list,
`filter_tests_by_features` returns a suite whose test cases are exactly
the critical test cases of the input, in their original order;
non-critical test cases are dropped (and the suite name gains a
`-filtered` suffix). -/
theorem filter_tests_empty_features_keeps_only_critical
    (suite : E2ETestSuite) (mappings : List FeatureMapping) :
    (filter_tests_by_features suite [] mappings).test_cases
      = suite.test_cases.filter (fun tc => tc.critical) := by
  simp [filter_tests_by_features, relevant_test_ids]

/-- C4 counterexample: in WARN mode at a concrete unavailable status
classified SERVER_NOT_RUNNING, the returned result's output message
does not carry the Error Catalog's remediation text for that reason
(the handler formats the message with remediation excluded). -/
theorem warn_output_lacks_remediation_counterexample :
    ((handle_mcp_unavailable
        { status := .UNAVAILABLE, reason := some .SERVER_NOT_RUNNING
          message := "Browser MCP server is not running", checked_at := 0 }
        { mode := FallbackMode.WARN } true true).1.map
      (fun r => strContains r.raw_output
        (get_error_for_reason (some .SERVER_NOT_RUNNING)).remediation))
    = some false := by
  decide

/-- C4 (amended): in WARN mode, `handle_mcp_unavailable` returns a
synthetic always-passing result with zero checks whose output message
is the Error Catalog's formatted error message for the availability's
classified failure reason with remediation excluded (error code,
message and documentation link only; `include_remediation=False`). -/
theorem handle_mcp_unavailable_warn_message
    (availability : MCPAvailability) (config : FallbackConfig)
    (u l : Bool) (h : config.mode = FallbackMode.WARN) :
    ∃ r, (handle_mcp_unavailable availability config u l).1 = some r ∧
      r.passed = true ∧ r.total_checks = 0 ∧
      r.raw_output = format_error_message availability.reason false := by
  simp only [handle_mcp_unavailable, h]
  exact ⟨_, rfl, rfl, rfl, rfl⟩

/-- C4 (amended) witness at a concrete WARN config and availability. -/
theorem handle_mcp_unavailable_warn_message_witness :
    ∃ r, (handle_mcp_unavailable
      { status := .UNAVAILABLE, reason := some .CONNECTION_TIMEOUT
        message := "Connection to Browser MCP timed out", checked_at := 7 }
      { mode := FallbackMode.WARN } false true).1 = some r ∧
      r.passed = true ∧ r.total_checks = 0 ∧
      r.raw_output = format_error_message (some .CONNECTION_TIMEOUT) false :=
  handle_mcp_unavailable_warn_message _ _ false true rfl

/-- C5: for every tier string and every config with `force_depth` set,
`get_validation_depth_for_tier` returns `force_depth`, independent of
the tier string and of the per-tier depth assignments (no tier lookup
occurs). -/
theorem get_validation_depth_force_depth_wins
    (tier : String) (config : ValidationDepthConfig) (d : ValidationDepth)
    (h : config.force_depth = some d) :
    get_validation_depth_for_tier tier (some config) = d := by
  simp [get_validation_depth_for_tier, h]

/-- C5 witness: a tier whose table entry (FULL for "complex") differs
from the forced depth SMOKE. -/
theorem get_validation_depth_force_depth_wins_witness :
    get_validation_depth_for_tier "complex"
      (some { force_depth := some .SMOKE }) = .SMOKE :=
  get_validation_depth_force_depth_wins "complex" _ .SMOKE rfl

/-- C3 counterexample: a probe (empty cache, not forced) whose connect
attempt raises a timeout creates a client and attempts connect but
never attempts close, so close is not always attempted. -/
theorem probe_close_skipped_on_exception_counterexample :
    (check_browser_mcp { cache_duration := 60 } 0 false .raisesTimeout).2.2
      = [.create, .connectAttempt]
    ∧ ClientEvent.closeAttempt ∉
        (check_browser_mcp { cache_duration := 60 } 0 false
          .raisesTimeout).2.2 := by
  decide

/-- C3 (amended): every call of either checker either serves the cache
with no client operation, or performs a probe that instantiates a
client and attempts connect, and then attempts close exactly when the
connect attempt returns (connected or not) — when connect raises an
exception, control transfers to the exception handler and close is not
attempted. -/
theorem check_mcp_probe_trace (st : MCPAvailabilityChecker) (now : Int)
    (force : Bool) (outcome : ConnectOutcome) :
    ((check_browser_mcp st now force outcome).2.2 = [] ∨
      (check_browser_mcp st now force outcome).2.2
        = ClientEvent.create :: ClientEvent.connectAttempt ::
          (match outcome with
           | .returns _ => [ClientEvent.closeAttempt]
           | _ => []))
    ∧ ((check_electron_mcp st now force outcome).2.2 = [] ∨
      (check_electron_mcp st now force outcome).2.2
        = ClientEvent.create :: ClientEvent.connectAttempt ::
          (match outcome with
           | .returns _ => [ClientEvent.closeAttempt]
           | _ => []))
    ∧ (ClientEvent.closeAttempt ∈
        (ClientEvent.create :: ClientEvent.connectAttempt ::
          (match outcome with
           | .returns _ => [ClientEvent.closeAttempt]
           | _ => []))
        ↔ ∃ b, outcome = ConnectOutcome.returns b) := by
  refine ⟨?_, ?_, ?_⟩
  · cases force with
    | false =>
      cases hc : st.browser_cache with
      | none =>
        right
        cases outcome <;> simp [check_browser_mcp, hc, browser_probe]
      | some c =>
        by_cases hlt : now - c.checked_at < st.cache_duration
        · left
          simp [check_browser_mcp, hc, hlt]
        · right
          cases outcome <;> simp [check_browser_mcp, hc, hlt, browser_probe]
    | true =>
      right
      cases outcome <;> simp [check_browser_mcp, browser_probe]
  · cases force with
    | false =>
      cases hc : st.electron_cache with
      | none =>
        right
        cases outcome <;> simp [check_electron_mcp, hc, electron_probe]
      | some c =>
        by_cases hlt : now - c.checked_at < st.cache_duration
        · left
          simp [check_electron_mcp, hc, hlt]
        · right
          cases outcome <;> simp [check_electron_mcp, hc, hlt, electron_probe]
    | true =>
      right
      cases outcome <;> simp [check_electron_mcp, electron_probe]
  · cases outcome <;> simp

/-- C6: for each backend kind, a non-forced check against a cached
availability younger than the TTL returns the cached value unchanged
with no client operation (no client created, no connect attempted);
and, starting from an empty cache, two non-forced checks within one
TTL window perform exactly one connect attempt overall, with no client
operation on the second check. -/
theorem check_mcp_cache_single_probe
    (st : MCPAvailabilityChecker) (now : Int) (outcome : ConnectOutcome)
    (c : MCPAvailability) (dur t1 t2 : Int) (o1 o2 : ConnectOutcome)
    (hb : st.browser_cache = some c)
    (he : st.electron_cache = some c)
    (hfresh : now - c.checked_at < st.cache_duration)
    (hwin : t2 - t1 < dur) :
    check_browser_mcp st now false outcome = (c, st, [])
    ∧ check_electron_mcp st now false outcome = (c, st, [])
    ∧ ((check_browser_mcp { cache_duration := dur } t1 false o1).2.2
        ++ (check_browser_mcp
              (check_browser_mcp { cache_duration := dur } t1 false o1).2.1
              t2 false o2).2.2).count ClientEvent.connectAttempt = 1
    ∧ (check_browser_mcp
        (check_browser_mcp { cache_duration := dur } t1 false o1).2.1
        t2 false o2).2.2 = []
    ∧ ((check_electron_mcp { cache_duration := dur } t1 false o1).2.2
        ++ (check_electron_mcp
              (check_electron_mcp { cache_duration := dur } t1 false o1).2.1
              t2 false o2).2.2).count ClientEvent.connectAttempt = 1
    ∧ (check_electron_mcp
        (check_electron_mcp { cache_duration := dur } t1 false o1).2.1
        t2 false o2).2.2 = [] := by
  refine ⟨?_, ?_, ?_, ?_, ?_, ?_⟩
  · simp only [check_browser_mcp, hb]
    rw [if_pos hfresh]
  · simp only [check_electron_mcp, he]
    rw [if_pos hfresh]
  · cases o1 <;>
      simp [check_browser_mcp, browser_probe, hwin, List.count_cons,
        List.count_append, apply_ite MCPAvailability.checked_at]
  · cases o1 <;>
      simp [check_browser_mcp, browser_probe, hwin,
        apply_ite MCPAvailability.checked_at]
  · cases o1 <;>
      simp [check_electron_mcp, electron_probe, hwin, List.count_cons,
        List.count_append, apply_ite MCPAvailability.checked_at]
  · cases o1 <;>
      simp [check_electron_mcp, electron_probe, hwin,
        apply_ite MCPAvailability.checked_at]

/-- C6 witness: TTL 60, cached entry from time 0 served at time 30;
a probe at time 100 followed by a check at time 130. -/
theorem check_mcp_cache_single_probe_witness :
    check_browser_mcp
      { cache_duration := 60
        browser_cache := some
          { status := .AVAILABLE, reason := none
            message := "Browser MCP is available", checked_at := 0 }
        electron_cache := some
          { status := .AVAILABLE, reason := none
            message := "Browser MCP is available", checked_at := 0 } }
      30 false (.returns true)
      = ({ status := .AVAILABLE, reason := none
           message := "Browser MCP is available", checked_at := 0 },
         { cache_duration := 60
           browser_cache := some
             { status := .AVAILABLE, reason := none
               message := "Browser MCP is available", checked_at := 0 }
           electron_cache := some
             { status := .AVAILABLE, reason := none
               message := "Browser MCP is available", checked_at := 0 } },
         [])
    ∧ check_electron_mcp
      { cache_duration := 60
        browser_cache := some
          { status := .AVAILABLE, reason := none
            message := "Browser MCP is available", checked_at := 0 }
        electron_cache := some
          { status := .AVAILABLE, reason := none
            message := "Browser MCP is available", checked_at := 0 } }
      30 false (.returns true)
      = ({ status := .AVAILABLE, reason := none
           message := "Browser MCP is available", checked_at := 0 },
         { cache_duration := 60
           browser_cache := some
             { status := .AVAILABLE, reason := none
               message := "Browser MCP is available", checked_at := 0 }
           electron_cache := some
             { status := .AVAILABLE, reason := none
               message := "Browser MCP is available", checked_at := 0 } },
         [])
    ∧ ((check_browser_mcp { cache_duration := 60 } 100 false
          (.returns false)).2.2
        ++ (check_browser_mcp
              (check_browser_mcp { cache_duration := 60 } 100 false
                (.returns false)).2.1
              130 false .raisesTimeout).2.2).count
        ClientEvent.connectAttempt = 1
    ∧ (check_browser_mcp
        (check_browser_mcp { cache_duration := 60 } 100 false
          (.returns false)).2.1
        130 false .raisesTimeout).2.2 = []
    ∧ ((check_electron_mcp { cache_duration := 60 } 100 false
          (.returns false)).2.2
        ++ (check_electron_mcp
              (check_electron_mcp { cache_duration := 60 } 100 false
                (.returns false)).2.1
              130 false .raisesTimeout).2.2).count
        ClientEvent.connectAttempt = 1
    ∧ (check_electron_mcp
        (check_electron_mcp { cache_duration := 60 } 100 false
          (.returns false)).2.1
        130 false .raisesTimeout).2.2 = [] :=
  check_mcp_cache_single_probe _ 30 (.returns true) _ 60 100 130
    (.returns false) .raisesTimeout rfl rfl (by decide) (by decide)

/-- Helper: length of the cross-browser expansion. -/
theorem expand_length_aux (cs : List E2ETestCase) (bs : List String) :
    (expand_test_cases_for_browsers cs bs).length = cs.length * bs.length := by
  induction cs with
  | nil => simp [expand_test_cases_for_browsers]
  | cons c cs ih =>
    have h : expand_test_cases_for_browsers (c :: cs) bs
        = (bs.map fun b => browser_clone c b)
          ++ expand_test_cases_for_browsers cs bs := by
      simp [expand_test_cases_for_browsers]
    rw [h, List.length_append, List.length_map, ih]
    simp [List.length_cons]
    ring

/-- Helper: the element at case-major, browser-minor position
`i * |bs| + j` of the expansion is the clone of case `i` for browser
`j`. -/
theorem expand_get_aux (cs : List E2ETestCase) (bs : List String)
    (i j : Nat) (hi : i < cs.length) (hj : j < bs.length)
    (hk : i * bs.length + j
        < (expand_test_cases_for_browsers cs bs).length) :
    (expand_test_cases_for_browsers cs bs).get ⟨i * bs.length + j, hk⟩
      = browser_clone (cs.get ⟨i, hi⟩) (bs.get ⟨j, hj⟩) := by
  induction cs generalizing i with
  | nil => simp at hi
  | cons c cs ih =>
    have hsplit : expand_test_cases_for_browsers (c :: cs) bs
        = (bs.map fun b => browser_clone c b)
          ++ expand_test_cases_for_browsers cs bs := by
      simp [expand_test_cases_for_browsers]
    cases i with
    | zero =>
      simp only [List.get_eq_getElem, hsplit, Nat.zero_mul, Nat.zero_add]
      rw [List.getElem_append_left (by simpa using hj)]
      simp
    | succ i =>
      have hidx : (i + 1) * bs.length + j
          = bs.length + (i * bs.length + j) := by ring
      have hlen : i * bs.length + j
          < (expand_test_cases_for_browsers cs bs).length := by
        have := hk
        rw [hsplit] at this
        simp only [List.length_append, List.length_map] at this
        omega
      have hi2 : i < cs.length := by simpa using hi
      have := ih i hi2 hlen
      simp only [List.get_eq_getElem] at this ⊢
      simp only [hsplit, hidx]
      rw [List.getElem_append_right (by simp [List.length_map])]
      simp only [List.length_map, Nat.add_sub_cancel_left]
      simpa using this

/-- C7: for every list of test cases and every list of browsers,
`expand_test_cases_for_browsers` returns exactly
`|cases| * |browsers|` test cases, ordered case-major and
browser-minor, where the clone at pair `(i, j)` has id
`<originalId>-<browserName>` and the original's steps. -/
theorem expand_test_cases_count_and_order
    (cs : List E2ETestCase) (bs : List String) :
    (expand_test_cases_for_browsers cs bs).length = cs.length * bs.length
    ∧ ∀ i j (hi : i < cs.length) (hj : j < bs.length)
        (hk : i * bs.length + j
            < (expand_test_cases_for_browsers cs bs).length),
        (expand_test_cases_for_browsers cs bs).get ⟨i * bs.length + j, hk⟩
            = browser_clone (cs.get ⟨i, hi⟩) (bs.get ⟨j, hj⟩)
        ∧ ((expand_test_cases_for_browsers cs bs).get
              ⟨i * bs.length + j, hk⟩).id
            = (cs.get ⟨i, hi⟩).id ++ "-" ++ bs.get ⟨j, hj⟩
        ∧ ((expand_test_cases_for_browsers cs bs).get
              ⟨i * bs.length + j, hk⟩).steps
            = (cs.get ⟨i, hi⟩).steps := by
  refine ⟨expand_length_aux cs bs, fun i j hi hj hk => ?_⟩
  have h := expand_get_aux cs bs i j hi hj hk
  exact ⟨h, by rw [h]; rfl, by rw [h]; rfl⟩


/-- C7 witness: two cases, two browsers; position (1, 0) is the clone
of the second case for the first browser. -/
theorem expand_test_cases_count_and_order_witness :
    (expand_test_cases_for_browsers
      [{ id := "a", name := "A", description := "" },
       { id := "b", name := "B", description := "" }]
      ["chromium", "firefox"]).length = 2 * 2
    ∧ (expand_test_cases_for_browsers
        [{ id := "a", name := "A", description := "" },
         { id := "b", name := "B", description := "" }]
        ["chromium", "firefox"]).get ⟨1 * 2 + 0, by decide⟩
      = browser_clone { id := "b", name := "B", description := "" }
          "chromium" := by
  have h := expand_test_cases_count_and_order
    [{ id := "a", name := "A", description := "" },
     { id := "b", name := "B", description := "" }]
    ["chromium", "firefox"]
  exact ⟨h.1, (h.2 1 0 (by decide) (by decide) (by decide)).1⟩

/-- C8: for every suite, every affected-features list (including the
empty one) and every mappings list, every test case flagged critical in
the input suite is present in the output of
`filter_tests_by_features`; the output is the feature-matched cases
followed by the critical cases not already matched. -/
theorem filter_tests_critical_survive
    (suite : E2ETestSuite) (features : List String)
    (mappings : List FeatureMapping) (tc : E2ETestCase)
    (hmem : tc ∈ suite.test_cases) (hcrit : tc.critical = true) :
    tc ∈ (filter_tests_by_features suite features mappings).test_cases
    ∧ (filter_tests_by_features suite features mappings).test_cases
      = suite.test_cases.filter
          (fun c => (relevant_test_ids features mappings).contains c.id)
        ++ suite.test_cases.filter
          (fun c => c.critical
            && !((relevant_test_ids features mappings).contains c.id)) := by
  refine ⟨?_, rfl⟩
  by_cases hid : (relevant_test_ids features mappings).contains tc.id = true
  · apply List.mem_append_left
    exact List.mem_filter.2 ⟨hmem, hid⟩
  · apply List.mem_append_right
    refine List.mem_filter.2 ⟨hmem, ?_⟩
    simp only [Bool.not_eq_true] at hid
    have hnot : tc.id ∉ relevant_test_ids features mappings := by
      simpa using hid
    simp [hcrit, hnot]

/-- C8 witness: a critical case not matched by any feature survives
filtering with empty features and empty mappings. -/
theorem filter_tests_critical_survive_witness :
    ({ id := "crit", name := "C", description := "", critical := true }
        : E2ETestCase)
      ∈ (filter_tests_by_features
          { name := "s", description := "", app_url := ""
            test_cases :=
              [{ id := "t", name := "T", description := "" },
               { id := "crit", name := "C", description := ""
                 critical := true }] }
          [] []).test_cases
    ∧ (filter_tests_by_features
        { name := "s", description := "", app_url := ""
          test_cases :=
            [{ id := "t", name := "T", description := "" },
             { id := "crit", name := "C", description := ""
               critical := true }] }
        [] []).test_cases
      = ({ name := "s", description := "", app_url := ""
           test_cases :=
             [{ id := "t", name := "T", description := "" },
              { id := "crit", name := "C", description := ""
                critical := true }] } : E2ETestSuite).test_cases.filter
          (fun c => (relevant_test_ids [] []).contains c.id)
        ++ ({ name := "s", description := "", app_url := ""
              test_cases :=
                [{ id := "t", name := "T", description := "" },
                 { id := "crit", name := "C", description := ""
                   critical := true }] } : E2ETestSuite).test_cases.filter
          (fun c => c.critical
            && !((relevant_test_ids [] []).contains c.id)) :=
  filter_tests_critical_survive _ [] []
    { id := "crit", name := "C", description := "", critical := true }
    (by simp) rfl

/-- C9: whenever the resolved depth is SMOKE, the orchestrator's
returned result reports exactly 4 total checks regardless of the
supplied suite's test-case count, the metrics report those same 4
checks as the test count, and the suite's test-case count is recorded
as the skipped count in the metrics rather than executed. -/
theorem smoke_depth_reports_four_checks
    (tier : String) (suite : E2ETestSuite) (config : ValidationDepthConfig)
    (changed_files : Option (List String))
    (feature_mappings : List FeatureMapping)
    (fnmatchFn : String → String → Bool)
    (smoke : SmokeTestResult)
    (stepExec : E2ETestStep → Except String Unit)
    (domSnapshot : Except String String)
    (full_suite_result : E2EValidationResult)
    (duration_seconds : Int)
    (h : get_validation_depth_for_tier tier (some config)
        = ValidationDepth.SMOKE) :
    (run_complexity_aware_validation tier suite config changed_files
        feature_mappings fnmatchFn smoke stepExec domSnapshot
        full_suite_result duration_seconds).1.total_checks = 4
    ∧ (run_complexity_aware_validation tier suite config changed_files
        feature_mappings fnmatchFn smoke stepExec domSnapshot
        full_suite_result duration_seconds).2.test_count = 4
    ∧ (run_complexity_aware_validation tier suite config changed_files
        feature_mappings fnmatchFn smoke stepExec domSnapshot
        full_suite_result duration_seconds).2.skipped_test_count
      = suite.test_cases.length := by
  simp only [run_complexity_aware_validation, h]
  exact ⟨rfl, rfl, trivial⟩

/-- C9 witness: tier "simple" with the default config resolves to
SMOKE; a three-case suite yields 4 reported checks and 3 skipped. -/
theorem smoke_depth_reports_four_checks_witness :
    (run_complexity_aware_validation "simple"
        { name := "s", description := "", app_url := "http://x"
          test_cases :=
            [{ id := "1", name := "1", description := "" },
             { id := "2", name := "2", description := "" },
             { id := "3", name := "3", description := "" }] }
        {} none [] (fun _ _ => false)
        { app_loads := true, main_page_renders := true
          no_console_errors := true, health_check_passed := false }
        (fun _ => Except.ok ()) (Except.error "no client")
        { passed := true, total_checks := 0, passed_checks := 0
          failed_checks := 0 } 5).1.total_checks = 4
    ∧ (run_complexity_aware_validation "simple"
        { name := "s", description := "", app_url := "http://x"
          test_cases :=
            [{ id := "1", name := "1", description := "" },
             { id := "2", name := "2", description := "" },
             { id := "3", name := "3", description := "" }] }
        {} none [] (fun _ _ => false)
        { app_loads := true, main_page_renders := true
          no_console_errors := true, health_check_passed := false }
        (fun _ => Except.ok ()) (Except.error "no client")
        { passed := true, total_checks := 0, passed_checks := 0
          failed_checks := 0 } 5).2.test_count = 4
    ∧ (run_complexity_aware_validation "simple"
        { name := "s", description := "", app_url := "http://x"
          test_cases :=
            [{ id := "1", name := "1", description := "" },
             { id := "2", name := "2", description := "" },
             { id := "3", name := "3", description := "" }] }
        {} none [] (fun _ _ => false)
        { app_loads := true, main_page_renders := true
          no_console_errors := true, health_check_passed := false }
        (fun _ => Except.ok ()) (Except.error "no client")
        { passed := true, total_checks := 0, passed_checks := 0
          failed_checks := 0 } 5).2.skipped_test_count
      = ({ name := "s", description := "", app_url := "http://x"
           test_cases :=
             [{ id := "1", name := "1", description := "" },
              { id := "2", name := "2", description := "" },
              { id := "3", name := "3", description := "" }] }
          : E2ETestSuite).test_cases.length :=
  smoke_depth_reports_four_checks "simple" _ {} none [] (fun _ _ => false)
    _ (fun _ => Except.ok ()) (Except.error "no client") _ 5 (by decide)

/-- C10: for every test case whose skip flag is true, `run_test_case`
returns a record with `passed = true` and `skipped = true`, with an
empty interaction history and without executing any step or invoking
any automation-client operation (empty client-operation trace). -/
theorem run_test_case_skip_no_client_ops (test_case : E2ETestCase)
    (stepExec : E2ETestStep → Except String Unit)
    (domSnapshot : Except String String)
    (h : test_case.skip = true) :
    (run_test_case test_case stepExec domSnapshot).1.passed = true
    ∧ (run_test_case test_case stepExec domSnapshot).1.skipped = true
    ∧ (run_test_case test_case stepExec domSnapshot).1.interaction_history
        = []
    ∧ (run_test_case test_case stepExec domSnapshot).2 = [] := by
  simp [run_test_case, h]

/-- C10 witness: a concrete skipped case with a step whose execution
oracle would fail is reported passed and skipped with no client
operation. -/
theorem run_test_case_skip_no_client_ops_witness :
    (run_test_case
        { id := "t", name := "T", description := ""
          steps := [{ action := "click", selector := some "#b" }]
          skip := true }
        (fun _ => Except.error "boom") (Except.ok "dom")).1.passed = true
    ∧ (run_test_case
        { id := "t", name := "T", description := ""
          steps := [{ action := "click", selector := some "#b" }]
          skip := true }
        (fun _ => Except.error "boom") (Except.ok "dom")).1.skipped = true
    ∧ (run_test_case
        { id := "t", name := "T", description := ""
          steps := [{ action := "click", selector := some "#b" }]
          skip := true }
        (fun _ => Except.error "boom")
        (Except.ok "dom")).1.interaction_history = []
    ∧ (run_test_case
        { id := "t", name := "T", description := ""
          steps := [{ action := "click", selector := some "#b" }]
          skip := true }
        (fun _ => Except.error "boom") (Except.ok "dom")).2 = [] :=
  run_test_case_skip_no_client_ops _ (fun _ => Except.error "boom")
    (Except.ok "dom") rfl

end AutoClaude
